import Mathlib

/-!
Shallow embedding of `src/repl/handler.rs` from the aichat repository.

The file models the two components of the source file:
* `ReplyStreamHandler` (the Stream Relay): `text`, `done`, `get_buffer`,
  `safe_ret`.  The crossbeam channel endpoint is modelled by the list
  `sent` of events that were successfully handed to the channel; whether a
  given `send` call succeeds is an input of each call (`sendOk`), and the
  value of `abort.aborted()` observed by `safe_ret` is the input `aborted`.
* `ReplCmdHandler` (the Command Dispatcher): `init`, `copy`, `handle`.
  The external collaborators (shared configuration operations, network
  client, renderer, clipboard, filesystem) are out of scope of the source
  file and are modelled as an environment `Env` of result-returning
  functions; `anyhow` errors are modelled as `Except String`, and
  `with_context` as prefixing the context string (`"ctx: cause"`).
  Externally visible side effects are collected in an ordered `Effect`
  list.
-/

namespace Aichat

/-- Mirrors `enum ReplyStreamEvent { Text(String), Done }`. -/
inductive ReplyStreamEvent where
  | Text (s : String)
  | Done
deriving DecidableEq

/-- Mirrors `struct ReplyStreamHandler`.  The `sender` field of the source
is modelled by `sent`: the ordered list of events successfully delivered
to the channel so far.  The `abort` field is not stored: the value that
`abort.aborted()` yields at a given call is passed to that call. -/
structure ReplyStreamHandler where
  buffer : String
  sent : List ReplyStreamEvent
deriving DecidableEq

/-- Mirrors `ReplyStreamHandler::new`: empty buffer, nothing sent yet. -/
def ReplyStreamHandler.new : ReplyStreamHandler :=
  { buffer := "", sent := [] }

/-- Mirrors `ReplyStreamHandler::safe_ret`: `if ret.is_err() &&
self.abort.aborted() { return Ok(()); } ret`. -/
def ReplyStreamHandler.safe_ret (aborted : Bool) (ret : Except String Unit) :
    Except String Unit :=
  if !ret.isOk && aborted then Except.ok () else ret

/-- Mirrors `ReplyStreamHandler::text`.  `sendOk` tells whether
`self.sender.send(Text(..))` succeeds at this call; `aborted` is the value
of `self.abort.aborted()` read by `safe_ret`.  Returns the updated handler
state together with the `Result<()>` of the call. -/
def ReplyStreamHandler.text (h : ReplyStreamHandler) (text : String)
    (sendOk : Bool) (aborted : Bool) : ReplyStreamHandler × Except String Unit :=
  if h.buffer.isEmpty && text == "\n\n" then
    (h, Except.ok ())
  else
    let h1 : ReplyStreamHandler := { h with buffer := h.buffer ++ text }
    let ret : Except String Unit :=
      if sendOk then Except.ok ()
      else Except.error "Failed to send StreamEvent:Text"
    let h2 : ReplyStreamHandler :=
      if sendOk then { h1 with sent := h1.sent ++ [ReplyStreamEvent.Text text] }
      else h1
    (h2, ReplyStreamHandler.safe_ret aborted ret)

/-- Mirrors `ReplyStreamHandler::done`, with the same conventions as
`ReplyStreamHandler.text`. -/
def ReplyStreamHandler.done (h : ReplyStreamHandler) (sendOk : Bool)
    (aborted : Bool) : ReplyStreamHandler × Except String Unit :=
  let ret : Except String Unit :=
    if sendOk then Except.ok ()
    else Except.error "Failed to send StreamEvent:Done"
  let h2 : ReplyStreamHandler :=
    if sendOk then { h with sent := h.sent ++ [ReplyStreamEvent.Done] }
    else h
  (h2, ReplyStreamHandler.safe_ret aborted ret)

/-- Mirrors `ReplyStreamHandler::get_buffer`. -/
def ReplyStreamHandler.get_buffer (h : ReplyStreamHandler) : String :=
  h.buffer

/-- Runs a sequence of `text` calls; each element of the list carries the
fragment, this call's `sendOk`, and this call's `aborted` value. -/
def runTexts (h : ReplyStreamHandler) :
    List (String × Bool × Bool) → ReplyStreamHandler
  | [] => h
  | c :: rest => runTexts (ReplyStreamHandler.text h c.1 c.2.1 c.2.2).1 rest

/-- The fragments of the list that the leading-double-newline rule does not
suppress, given that the buffer currently holds `buf`: a fragment is
dropped exactly when the buffer accumulated so far is empty and the
fragment is `"\n\n"`. -/
def nonSuppressed (buf : String) : List String → List String
  | [] => []
  | f :: rest =>
      if buf.isEmpty && f == "\n\n" then nonSuppressed buf rest
      else f :: nonSuppressed (buf ++ f) rest

/-- Ordered concatenation of a list of strings. -/
def concatAll : List String → String
  | [] => ""
  | s :: rest => s ++ concatAll rest

/-! Helper lemmas about `text`. -/

theorem text_suppressed (h : ReplyStreamHandler) (s : String) (sendOk aborted : Bool)
    (hc : (h.buffer.isEmpty && s == "\n\n") = true) :
    ReplyStreamHandler.text h s sendOk aborted = (h, Except.ok ()) := by
  simp [ReplyStreamHandler.text, hc]

theorem text_state_not_suppressed (h : ReplyStreamHandler) (s : String)
    (sendOk aborted : Bool)
    (hc : (h.buffer.isEmpty && s == "\n\n") = false) :
    (ReplyStreamHandler.text h s sendOk aborted).1 =
      { buffer := h.buffer ++ s
        sent := if sendOk then h.sent ++ [ReplyStreamEvent.Text s] else h.sent } := by
  cases sendOk <;> simp [ReplyStreamHandler.text, hc]

theorem text_ret_not_suppressed (h : ReplyStreamHandler) (s : String)
    (sendOk aborted : Bool)
    (hc : (h.buffer.isEmpty && s == "\n\n") = false) :
    (ReplyStreamHandler.text h s sendOk aborted).2 =
      ReplyStreamHandler.safe_ret aborted
        (if sendOk then Except.ok ()
         else Except.error "Failed to send StreamEvent:Text") := by
  cases sendOk <;> simp [ReplyStreamHandler.text, hc]

theorem runTexts_buffer (calls : List (String × Bool × Bool)) :
    ∀ h : ReplyStreamHandler,
      (runTexts h calls).buffer =
        h.buffer ++ concatAll (nonSuppressed h.buffer (calls.map (fun c => c.1))) := by
  induction calls with
  | nil => intro h; simp [runTexts, concatAll, nonSuppressed]
  | cons c rest ih =>
      intro h
      by_cases hc : (h.buffer.isEmpty && c.1 == "\n\n") = true
      · rw [show (runTexts h (c :: rest)) =
              runTexts (ReplyStreamHandler.text h c.1 c.2.1 c.2.2).1 rest from rfl,
            text_suppressed h c.1 c.2.1 c.2.2 hc]
        simpa [nonSuppressed, hc] using ih h
      · rw [Bool.not_eq_true] at hc
        rw [show (runTexts h (c :: rest)) =
              runTexts (ReplyStreamHandler.text h c.1 c.2.1 c.2.2).1 rest from rfl,
            text_state_not_suppressed h c.1 c.2.1 c.2.2 hc]
        have := ih { buffer := h.buffer ++ c.1
                     sent := if c.2.1 then h.sent ++ [ReplyStreamEvent.Text c.1]
                             else h.sent }
        simp only [this]
        simp [nonSuppressed, hc, concatAll, String.append_assoc]

theorem string_append_ne_empty (a s : String) (hs : s ≠ "") : a ++ s ≠ "" := by
  intro h
  have hd : a.data ++ s.data = ([] : List Char) := by
    rw [← String.data_append, h]
  exact hs (String.ext (List.append_eq_nil.mp hd).2)

theorem not_suppressed_cond (h : ReplyStreamHandler) (s : String)
    (hns : ¬(h.buffer.isEmpty = true ∧ s = "\n\n")) :
    (h.buffer.isEmpty && s == "\n\n") = false := by
  by_contra hcc
  rw [Bool.not_eq_false, Bool.and_eq_true, beq_iff_eq] at hcc
  exact hns hcc

/-- Claim C1: whenever a channel send fails inside `text` or `done`
(`sendOk = false`, with `text` not on its suppression path so a send is
actually attempted), the call returns success if the abort signal is set
and returns the forwarding error if it is not. -/
theorem claim_C1 (h : ReplyStreamHandler) (s : String) :
    (h.done false true).2 = Except.ok () ∧
    (h.done false false).2 = Except.error "Failed to send StreamEvent:Done" ∧
    (¬(h.buffer.isEmpty = true ∧ s = "\n\n") →
      (h.text s false true).2 = Except.ok () ∧
      (h.text s false false).2 = Except.error "Failed to send StreamEvent:Text") := by
  refine ⟨by simp [ReplyStreamHandler.done, ReplyStreamHandler.safe_ret,
            Except.isOk, Except.toBool],
          by simp [ReplyStreamHandler.done, ReplyStreamHandler.safe_ret,
            Except.isOk, Except.toBool],
          fun hns => ?_⟩
  have hc := not_suppressed_cond h s hns
  rw [text_ret_not_suppressed h s false true hc,
      text_ret_not_suppressed h s false false hc]
  simp [ReplyStreamHandler.safe_ret, Except.isOk, Except.toBool]

theorem claim_C1_witness :
    (ReplyStreamHandler.new.text "a" false true).2 = Except.ok () ∧
    (ReplyStreamHandler.new.text "a" false false).2 =
      Except.error "Failed to send StreamEvent:Text" :=
  (claim_C1 ReplyStreamHandler.new "a").2.2 (by decide)

/-- Claim C2: for every sequence of `text` calls on one relay instance
(each with its own send outcome and abort reading), `get_buffer` is
exactly the ordered concatenation of the fragments not suppressed by the
leading-double-newline rule. -/
theorem claim_C2 (calls : List (String × Bool × Bool)) :
    (runTexts ReplyStreamHandler.new calls).get_buffer =
      concatAll (nonSuppressed "" (calls.map (fun c => c.1))) := by
  have := runTexts_buffer calls ReplyStreamHandler.new
  simpa [ReplyStreamHandler.get_buffer, ReplyStreamHandler.new] using this

/-- Claim C3 counterexample: `text "\n\n"` on a fresh relay is a prior
non-empty `text` call, yet the following `text "\n\n"` appends nothing
and forwards nothing (buffer stays `""` and no event is sent), refuting
"after any prior non-empty text call, text(\"\n\n\") does append". -/
theorem claim_C3_counterexample :
    ("\n\n" : String) ≠ "" ∧
    (ReplyStreamHandler.text
        (ReplyStreamHandler.text ReplyStreamHandler.new "\n\n" true false).1
        "\n\n" true false).1.buffer = "" ∧
    (ReplyStreamHandler.text
        (ReplyStreamHandler.text ReplyStreamHandler.new "\n\n" true false).1
        "\n\n" true false).1.sent = [] := by
  decide

/-- Claim C3 (amended): on a fresh relay the first `text "\n\n"` appends
nothing, forwards nothing and returns success; and after a prior
non-empty `text` call that was not itself suppressed, a `text "\n\n"`
does append the fragment to the buffer and (when the channel accepts the
send) forwards it as a `Text` event. -/
theorem claim_C3 :
    (∀ sendOk aborted : Bool,
      ReplyStreamHandler.text ReplyStreamHandler.new "\n\n" sendOk aborted =
        (ReplyStreamHandler.new, Except.ok ())) ∧
    (∀ (h : ReplyStreamHandler) (s : String) (sOk1 ab1 sOk2 ab2 : Bool),
      s ≠ "" →
      ¬(h.buffer.isEmpty = true ∧ s = "\n\n") →
      (ReplyStreamHandler.text (ReplyStreamHandler.text h s sOk1 ab1).1
          "\n\n" sOk2 ab2).1.buffer =
        (ReplyStreamHandler.text h s sOk1 ab1).1.buffer ++ "\n\n" ∧
      (sOk2 = true →
        (ReplyStreamHandler.text (ReplyStreamHandler.text h s sOk1 ab1).1
            "\n\n" sOk2 ab2).1.sent =
          (ReplyStreamHandler.text h s sOk1 ab1).1.sent ++
            [ReplyStreamEvent.Text "\n\n"])) := by
  constructor
  · exact fun sendOk aborted => text_suppressed _ _ _ _ (by decide)
  · intro h s sOk1 ab1 sOk2 ab2 hs hns
    have hc := not_suppressed_cond h s hns
    have h1eq := text_state_not_suppressed h s sOk1 ab1 hc
    have hbuf : (ReplyStreamHandler.text h s sOk1 ab1).1.buffer = h.buffer ++ s := by
      rw [h1eq]
    have hne : (ReplyStreamHandler.text h s sOk1 ab1).1.buffer ≠ "" := by
      rw [hbuf]; exact string_append_ne_empty h.buffer s hs
    have hc2 : ((ReplyStreamHandler.text h s sOk1 ab1).1.buffer.isEmpty &&
        ("\n\n" == "\n\n")) = false := by
      have : (ReplyStreamHandler.text h s sOk1 ab1).1.buffer.isEmpty = false := by
        rw [← Bool.not_eq_true]
        intro hemp
        exact hne ((String.isEmpty_iff _).mp hemp)
      simp [this]
    have h2eq := text_state_not_suppressed
      (ReplyStreamHandler.text h s sOk1 ab1).1 "\n\n" sOk2 ab2 hc2
    constructor
    · rw [h2eq]
    · intro hOk2
      rw [h2eq, hOk2]
      simp

theorem claim_C3_witness :
    ("a" : String) ≠ "" ∧
    (ReplyStreamHandler.text
        (ReplyStreamHandler.text ReplyStreamHandler.new "a" true false).1
        "\n\n" true false).1.buffer =
      (ReplyStreamHandler.text ReplyStreamHandler.new "a" true false).1.buffer
        ++ "\n\n" :=
  ⟨by decide,
   (claim_C3.2 ReplyStreamHandler.new "a" true false true false (by decide)
      (by decide)).1⟩

/-- Claim C9: a non-suppressed `text` call appends the fragment to the
buffer before attempting the send, so even when the send fails and the
abort signal is unset (the call returns the forwarding error), the
fragment is still in the buffer returned by `get_buffer`. -/
theorem claim_C9 (h : ReplyStreamHandler) (s : String)
    (hns : ¬(h.buffer.isEmpty = true ∧ s = "\n\n")) :
    (ReplyStreamHandler.text h s false false).2 =
      Except.error "Failed to send StreamEvent:Text" ∧
    (ReplyStreamHandler.text h s false false).1.get_buffer = h.buffer ++ s := by
  have hc := not_suppressed_cond h s hns
  constructor
  · rw [text_ret_not_suppressed h s false false hc]
    simp [ReplyStreamHandler.safe_ret, Except.isOk]
  · rw [ReplyStreamHandler.get_buffer, text_state_not_suppressed h s false false hc]

theorem claim_C9_witness :
    (ReplyStreamHandler.text ReplyStreamHandler.new "a" false false).2 =
      Except.error "Failed to send StreamEvent:Text" ∧
    (ReplyStreamHandler.text ReplyStreamHandler.new "a" false false).1.get_buffer =
      ReplyStreamHandler.new.buffer ++ "a" :=
  claim_C9 ReplyStreamHandler.new "a" (by decide)

theorem runTexts_empty_frag (n : Nat) :
    ∀ h : ReplyStreamHandler, h.buffer = "" →
      runTexts h (List.replicate n ("", true, false)) =
        { buffer := ""
          sent := h.sent ++ List.replicate n (ReplyStreamEvent.Text "") } := by
  induction n with
  | zero =>
      intro h hb
      cases h
      simp_all [runTexts]
  | succ n ih =>
      intro h hb
      rw [List.replicate_succ]
      rw [show runTexts h (("", true, false) :: List.replicate n ("", true, false)) =
            runTexts (ReplyStreamHandler.text h "" true false).1
              (List.replicate n ("", true, false)) from rfl]
      have hc : (h.buffer.isEmpty && ("" == "\n\n")) = false := by
        simp
      rw [text_state_not_suppressed h "" true false hc]
      rw [ih _ (by simp [hb])]
      simp [List.replicate_succ]

/-- Claim C10: the suppression rule is keyed solely to the buffer being
empty: after any number of `text ""` calls on a fresh relay — each of
which forwards a `Text` event yet leaves the buffer empty — a subsequent
`text "\n\n"` is still suppressed. -/
theorem claim_C10 (n : Nat) (sendOk aborted : Bool) :
    (runTexts ReplyStreamHandler.new (List.replicate n ("", true, false))).buffer
      = "" ∧
    (runTexts ReplyStreamHandler.new (List.replicate n ("", true, false))).sent
      = List.replicate n (ReplyStreamEvent.Text "") ∧
    ReplyStreamHandler.text
        (runTexts ReplyStreamHandler.new (List.replicate n ("", true, false)))
        "\n\n" sendOk aborted =
      (runTexts ReplyStreamHandler.new (List.replicate n ("", true, false)),
        Except.ok ()) := by
  have hrun := runTexts_empty_frag n ReplyStreamHandler.new rfl
  refine ⟨by rw [hrun], by rw [hrun]; simp [ReplyStreamHandler.new], ?_⟩
  apply text_suppressed
  rw [hrun]
  exact (by decide : (("" : String).isEmpty && "\n\n" == "\n\n") = true)

/-! Command dispatcher.  `Config` models the fields of the shared
configuration that `handler.rs` itself inspects; every collaborator
operation it merely delegates to lives in `Env`. -/

/-- Fields of the shared configuration read directly by `handler.rs`. -/
structure Config where
  role : Option String
  session : Option String
  auto_copy : Bool
  last_message : Option (String × String)
deriving DecidableEq

/-- Mirrors `enum ReplCmd`. -/
inductive ReplCmd where
  | Submit (s : String)
  | Info
  | RoleInfo
  | SessionInfo
  | SetModel (s : String)
  | SetRole (s : String)
  | ExitRole
  | StartSession (name : Option String)
  | ExitSession
  | Set (s : String)
  | Copy
  | ReadFile (path : String)
deriving DecidableEq

/-- Externally visible side effects of one `handle` call, in order. -/
inductive Effect where
  | PrintSendTokens (input : String)
  | InitClient
  | RenderStream (input : String)
  | SaveMessage (input reply : String)
  | ClipboardSet (s : String)
  | PrintNow (s : String)
deriving DecidableEq

/-- Results of the external collaborators invoked by `handler.rs`
(network client, streaming renderer, configuration operations, markdown
renderer, clipboard `set_text`, filesystem).  Mutating configuration
operations return the updated `Config`. -/
structure Env where
  init_client : Except String Unit
  render_stream : String → Except String String
  save_message : String → String → Config → Except String Config
  set_model : String → Config → Except String Config
  set_role : String → Config → Except String Config
  clear_role : Config → Except String Config
  start_session : Option String → Config → Except String Config
  end_session : Config → Except String Config
  update : String → Config → Except String Config
  info : Config → Except String String
  role_info : String → Except String String
  get_render_options : Config → Except String String
  markdown_init : String → Except String Unit
  session_render : String → Except String String
  set_text : String → Except String Unit
  open_file : String → Except String Unit
  read_to_string : String → Except String String

/-- Mirrors `struct ReplCmdHandler`: the shared configuration and the
stored result of `Clipboard::new()` (`Ok` when the binding is available,
`Err msg` when its construction failed). -/
structure ReplCmdHandler where
  config : Config
  clipboard : Except String Unit

/-- Mirrors `ReplCmdHandler::init`: stores the outcome of
`Clipboard::new()` without raising it and always returns `Ok(Self)`. -/
def ReplCmdHandler.init (config : Config) (clipboardNew : Except String Unit) :
    Except String ReplCmdHandler :=
  Except.ok { config := config, clipboard := clipboardNew }

/-- Mirrors `ReplCmdHandler::copy`: `bail!` with the stored construction
error, or delegate to `set_text`.  Also reports whether a clipboard write
was attempted, as the effect list. -/
def ReplCmdHandler.copy (h : ReplCmdHandler) (env : Env) (text : String) :
    List Effect × Except String Unit :=
  match h.clipboard with
  | Except.error err => ([], Except.error err)
  | Except.ok () =>
      match env.set_text text with
      | Except.error e => ([Effect.ClipboardSet text], Except.error e)
      | Except.ok () => ([Effect.ClipboardSet text], Except.ok ())

/-- Mirrors the `ReplCmd::Submit` arm of `ReplCmdHandler::handle`.
Returns the configuration after the call, the ordered side effects, and
the `Result<()>`. -/
def ReplCmdHandler.handleSubmit (h : ReplCmdHandler) (env : Env)
    (input : String) : Config × List Effect × Except String Unit :=
  if input.isEmpty then (h.config, [], Except.ok ())
  else
    match env.init_client with
    | Except.error e =>
        (h.config, [Effect.PrintSendTokens input, Effect.InitClient],
          Except.error e)
    | Except.ok () =>
        match env.render_stream input with
        | Except.error e =>
            (h.config, [Effect.PrintSendTokens input, Effect.InitClient,
              Effect.RenderStream input], Except.error e)
        | Except.ok buffer =>
            match env.save_message input buffer h.config with
            | Except.error e =>
                (h.config, [Effect.PrintSendTokens input, Effect.InitClient,
                  Effect.RenderStream input, Effect.SaveMessage input buffer],
                  Except.error e)
            | Except.ok cfg =>
                if cfg.auto_copy then
                  (cfg, [Effect.PrintSendTokens input, Effect.InitClient,
                    Effect.RenderStream input, Effect.SaveMessage input buffer]
                    ++ (ReplCmdHandler.copy { h with config := cfg } env buffer).1,
                    Except.ok ())
                else
                  (cfg, [Effect.PrintSendTokens input, Effect.InitClient,
                    Effect.RenderStream input, Effect.SaveMessage input buffer],
                    Except.ok ())

/-- Mirrors `ReplCmdHandler::handle`.  The `ReadFile` arm's recursive
`self.handle(ReplCmd::Submit(contents))` is the `handleSubmit` call the
`Submit` arm also reduces to. -/
def ReplCmdHandler.handle (h : ReplCmdHandler) (env : Env) :
    ReplCmd → Config × List Effect × Except String Unit
  | ReplCmd.Submit input => h.handleSubmit env input
  | ReplCmd.Info =>
      match env.info h.config with
      | Except.error e => (h.config, [], Except.error e)
      | Except.ok output =>
          (h.config, [Effect.PrintNow (output.trimRight ++ "\n\n")], Except.ok ())
  | ReplCmd.SetModel name =>
      match env.set_model name h.config with
      | Except.error e => (h.config, [], Except.error e)
      | Except.ok cfg => (cfg, [Effect.PrintNow "\n"], Except.ok ())
  | ReplCmd.SetRole name =>
      match env.set_role name h.config with
      | Except.error e => (h.config, [], Except.error e)
      | Except.ok cfg => (cfg, [Effect.PrintNow "\n"], Except.ok ())
  | ReplCmd.RoleInfo =>
      match h.config.role with
      | some role =>
          match env.role_info role with
          | Except.error e => (h.config, [], Except.error e)
          | Except.ok s =>
              (h.config, [Effect.PrintNow (s ++ "\n\n")], Except.ok ())
      | none => (h.config, [], Except.error "No role")
  | ReplCmd.ExitRole =>
      match env.clear_role h.config with
      | Except.error e => (h.config, [], Except.error e)
      | Except.ok cfg => (cfg, [Effect.PrintNow "\n"], Except.ok ())
  | ReplCmd.StartSession name =>
      match env.start_session name h.config with
      | Except.error e => (h.config, [], Except.error e)
      | Except.ok cfg => (cfg, [Effect.PrintNow "\n"], Except.ok ())
  | ReplCmd.SessionInfo =>
      match h.config.session with
      | some session =>
          match env.get_render_options h.config with
          | Except.error e => (h.config, [], Except.error e)
          | Except.ok opts =>
              match env.markdown_init opts with
              | Except.error e => (h.config, [], Except.error e)
              | Except.ok () =>
                  match env.session_render session with
                  | Except.error e => (h.config, [], Except.error e)
                  | Except.ok s =>
                      (h.config, [Effect.PrintNow (s ++ "\n\n")], Except.ok ())
      | none => (h.config, [], Except.error "No session")
  | ReplCmd.ExitSession =>
      match env.end_session h.config with
      | Except.error e => (h.config, [], Except.error e)
      | Except.ok cfg => (cfg, [Effect.PrintNow "\n"], Except.ok ())
  | ReplCmd.Set input =>
      match env.update input h.config with
      | Except.error e => (h.config, [], Except.error e)
      | Except.ok cfg => (cfg, [Effect.PrintNow "\n"], Except.ok ())
  | ReplCmd.Copy =>
      match ReplCmdHandler.copy h env
          ((Option.map (fun v => v.2) h.config.last_message).getD "") with
      | (effs, Except.error e) =>
          (h.config, effs, Except.error ("Failed to copy the last output: " ++ e))
      | (effs, Except.ok ()) =>
          (h.config, effs ++ [Effect.PrintNow "\n"], Except.ok ())
  | ReplCmd.ReadFile file =>
      match env.open_file file with
      | Except.error e =>
          (h.config, [], Except.error ("Unable to open file: " ++ e))
      | Except.ok () =>
          match env.read_to_string file with
          | Except.error e =>
              (h.config, [], Except.error ("Unable to read file: " ++ e))
          | Except.ok contents => h.handleSubmit env contents

/-- Claim C4: `handle(Submit(""))` returns success and performs no side
effect: no token-estimate notification, no client construction, no
streaming exchange, no saved message, and the configuration is
unchanged. -/
theorem claim_C4 (h : ReplCmdHandler) (env : Env) :
    h.handle env (ReplCmd.Submit "") = (h.config, [], Except.ok ()) := rfl

/-- Claim C5: `RoleInfo` with no active role fails with "No role", and
`SessionInfo` with no active session fails with "No session"; in both
cases the configuration is returned unmodified and no effect is
produced. -/
theorem claim_C5 (h : ReplCmdHandler) (env : Env) :
    (h.config.role = none →
      h.handle env ReplCmd.RoleInfo = (h.config, [], Except.error "No role")) ∧
    (h.config.session = none →
      h.handle env ReplCmd.SessionInfo =
        (h.config, [], Except.error "No session")) := by
  constructor
  · intro hr
    simp [ReplCmdHandler.handle, hr]
  · intro hs
    simp [ReplCmdHandler.handle, hs]

/-- A configuration with no role, no session, auto-copy off and no stored
message, for concrete evaluations. -/
def cfg0 : Config :=
  { role := none, session := none, auto_copy := false, last_message := none }

/-- Like `cfg0` but with the auto-copy option enabled. -/
def cfg1 : Config :=
  { role := none, session := none, auto_copy := true, last_message := none }

/-- A concrete environment: collaborators succeed, except that clipboard
writes fail and only `"good.txt"` can be opened. -/
def env0 : Env :=
  { init_client := Except.ok ()
    render_stream := fun _ => Except.ok "reply"
    save_message := fun _ _ c => Except.ok c
    set_model := fun _ c => Except.ok c
    set_role := fun _ c => Except.ok c
    clear_role := fun c => Except.ok c
    start_session := fun _ c => Except.ok c
    end_session := fun c => Except.ok c
    update := fun _ c => Except.ok c
    info := fun _ => Except.ok "info"
    role_info := fun _ => Except.ok "role info"
    get_render_options := fun _ => Except.ok "options"
    markdown_init := fun _ => Except.ok ()
    session_render := fun _ => Except.ok "session"
    set_text := fun _ => Except.error "clipboard write failed"
    open_file := fun f =>
      if f == "good.txt" then Except.ok () else Except.error "no such file"
    read_to_string := fun _ => Except.ok "hello" }

/-- A dispatcher over `cfg0` whose clipboard binding was constructed
successfully. -/
def handler0 : ReplCmdHandler :=
  { config := cfg0, clipboard := Except.ok () }

/-- A dispatcher over `cfg1` whose clipboard binding was constructed
successfully. -/
def handler1 : ReplCmdHandler :=
  { config := cfg1, clipboard := Except.ok () }

theorem claim_C5_witness :
    handler0.handle env0 ReplCmd.RoleInfo =
      (handler0.config, [], Except.error "No role") ∧
    handler0.handle env0 ReplCmd.SessionInfo =
      (handler0.config, [], Except.error "No session") :=
  ⟨(claim_C5 handler0 env0).1 rfl, (claim_C5 handler0 env0).2 rfl⟩

/-- Claim C6: `ReadFile` on a path that cannot be opened fails with the
"Unable to open file" context, producing no effect and dispatching no
`Submit`; on a readable path it dispatches `Submit` with the file's full
contents and returns that dispatch's result unchanged. -/
theorem claim_C6 (h : ReplCmdHandler) (env : Env) (file contents e : String) :
    (env.open_file file = Except.error e →
      h.handle env (ReplCmd.ReadFile file) =
        (h.config, [], Except.error ("Unable to open file: " ++ e))) ∧
    (env.open_file file = Except.ok () →
      env.read_to_string file = Except.ok contents →
      h.handle env (ReplCmd.ReadFile file) =
        h.handle env (ReplCmd.Submit contents)) := by
  constructor
  · intro h1
    simp [ReplCmdHandler.handle, h1]
  · intro h1 h2
    simp [ReplCmdHandler.handle, h1, h2]

theorem claim_C6_witness :
    (handler0.handle env0 (ReplCmd.ReadFile "missing.txt") =
      (handler0.config, [], Except.error ("Unable to open file: " ++ "no such file"))) ∧
    (handler0.handle env0 (ReplCmd.ReadFile "good.txt") =
      handler0.handle env0 (ReplCmd.Submit "hello")) :=
  ⟨(claim_C6 handler0 env0 "missing.txt" "hello" "no such file").1 rfl,
   (claim_C6 handler0 env0 "good.txt" "hello" "ignored").2 rfl rfl⟩

/-- Claim C7: a failed clipboard-binding construction does not make
`init` fail — the failure is stored in the dispatcher — and every later
`copy` attempt on that dispatcher returns an error carrying the stored
construction failure's message. -/
theorem claim_C7 (config : Config) (e : String) (env : Env) (s : String) :
    ReplCmdHandler.init config (Except.error e) =
      Except.ok { config := config, clipboard := Except.error e } ∧
    (ReplCmdHandler.copy { config := config, clipboard := Except.error e }
        env s).2 = Except.error e :=
  ⟨rfl, rfl⟩

/-- Claim C8: during `Submit` with auto-copy enabled a clipboard copy
failure is discarded and `Submit` still returns success, whereas the
explicit `Copy` command surfaces a copy failure wrapped with the context
"Failed to copy the last output". -/
theorem claim_C8 (h : ReplCmdHandler) (env : Env)
    (input buffer ce e : String) (cfg : Config) :
    (input.isEmpty = false →
      env.init_client = Except.ok () →
      env.render_stream input = Except.ok buffer →
      env.save_message input buffer h.config = Except.ok cfg →
      cfg.auto_copy = true →
      (ReplCmdHandler.copy { h with config := cfg } env buffer).2 =
        Except.error ce →
      (h.handle env (ReplCmd.Submit input)).2.2 = Except.ok ()) ∧
    ((ReplCmdHandler.copy h env
        ((Option.map (fun v => v.2) h.config.last_message).getD "")).2 =
          Except.error e →
      h.handle env ReplCmd.Copy =
        (h.config,
          (ReplCmdHandler.copy h env
            ((Option.map (fun v => v.2) h.config.last_message).getD "")).1,
          Except.error ("Failed to copy the last output: " ++ e))) := by
  constructor
  · intro hi hic hrs hsm hac _
    simp [ReplCmdHandler.handle, ReplCmdHandler.handleSubmit, hi, hic, hrs,
      hsm, hac]
  · intro hcp
    rcases hc2 : ReplCmdHandler.copy h env
        ((Option.map (fun v => v.2) h.config.last_message).getD "") with ⟨effs, ret⟩
    rw [hc2] at hcp
    simp only at hcp
    subst hcp
    simp [ReplCmdHandler.handle, hc2]

theorem claim_C8_witness :
    (handler1.handle env0 (ReplCmd.Submit "hi")).2.2 = Except.ok () ∧
    handler1.handle env0 ReplCmd.Copy =
      (handler1.config, [Effect.ClipboardSet ""],
        Except.error ("Failed to copy the last output: " ++
          "clipboard write failed")) :=
  ⟨(claim_C8 handler1 env0 "hi" "reply" "clipboard write failed"
      "clipboard write failed" cfg1).1 rfl rfl rfl rfl rfl rfl,
   (claim_C8 handler1 env0 "hi" "reply" "clipboard write failed"
      "clipboard write failed" cfg1).2 rfl⟩

end Aichat
